import Mathlib

set_option maxRecDepth 8192

/-!
Verification of the bacon-mcp diagnostic/test-output layer.

This file gives a shallow embedding of the pure logic of the repository:
the cargo JSON diagnostic parser, the test-output parser, the two report
formatters (src/unnamed/part_002) and the tool-call handler
(src/unnamed/part_003), and proves properties of them.

Modelling conventions:
- JavaScript strings are Lean String / List Char.
- A JSON value that may be absent or null is modelled as nested Options:
  for a field declared as (string | null | absent), none models an absent
  property (JS undefined), some none models an explicit JSON null, and
  some (some s) models a string.
- JSON.parse of one line of cargo output is a platform primitive; it is
  modelled as a function parameter (List Char -> CargoLine) so that the
  string-level parser and the handler are quantified over its behaviour.
- All definitions are total: in the source every throwing operation is
  wrapped in try/catch whose handler skips the line, which the embedding
  reflects by returning the corresponding skip value directly.
-/

/-- Character class of the JavaScript regular-expression escape backslash-s
(white space), as used by the patterns in src/unnamed/part_002. -/
def isJsWs (c : Char) : Bool :=
  c = ' ' || c = '\t' || c = '\n' || c = '\r' ||
  c.val = 0x0b || c.val = 0x0c || c.val = 0xa0 || c.val = 0x1680 ||
  (0x2000 ≤ c.val && c.val ≤ 0x200a) ||
  c.val = 0x2028 || c.val = 0x2029 || c.val = 0x202f || c.val = 0x205f ||
  c.val = 0x3000 || c.val = 0xfeff

/-- Character class of the JavaScript dot in a regular expression without
the s flag: any character except a line terminator. -/
def isDotChar (c : Char) : Bool :=
  !(c = '\n' || c = '\r' || c.val = 0x2028 || c.val = 0x2029)

/-- Character class of the JavaScript backslash-d escape: the ASCII digits. -/
def isDigitChar (c : Char) : Bool :=
  '0' ≤ c && c ≤ '9'

/-- JavaScript String.prototype.split with separator a newline:
splits at every newline character and keeps empty segments, so the result
is always nonempty and the empty text yields one empty segment. -/
def splitLines : List Char → List (List Char)
  | [] => [[]]
  | c :: cs =>
    if c = '\n' then [] :: splitLines cs
    else
      match splitLines cs with
      | [] => [[c]]
      | l :: ls => (c :: l) :: ls

/-- Matches a literal character sequence at the head of the input and
returns the remainder, or none on a mismatch. -/
def stripLit : List Char → List Char → Option (List Char)
  | [], cs => some cs
  | _ :: _, [] => none
  | l :: ls, c :: cs => if c = l then stripLit ls cs else none

/-- Splits off the maximal prefix of white-space characters. -/
def takeWs : List Char → List Char × List Char
  | [] => ([], [])
  | c :: cs =>
    if isJsWs c then
      match takeWs cs with
      | (w, r) => (c :: w, r)
    else ([], c :: cs)

/-- Splits off the maximal prefix of ASCII digits. -/
def takeDigits : List Char → List Char × List Char
  | [] => ([], [])
  | c :: cs =>
    if isDigitChar c then
      match takeDigits cs with
      | (d, r) => (c :: d, r)
    else ([], c :: cs)

/-- One source span of a cargo compiler message
(src/unnamed/part_002 lines 12-20). The label and suggested_replacement
fields are declared there as optional and nullable, hence the nested
Option encoding (none is an absent property, some none is JSON null). -/
structure Span where
  file_name : String
  line_start : Nat
  line_end : Nat
  column_start : Nat
  column_end : Nat
  label : Option (Option String)
  suggested_replacement : Option (Option String)
deriving DecidableEq

/-- Body of a compiler message (the message field of a cargo JSON record,
src/unnamed/part_002 lines 8-22). The code field models the JS expression
m.code?.code, which yields the code string when code is an object carrying
one and undefined when code is null or absent, so a single Option suffices.
The level is kept as a plain string: the source casts it with an
unchecked TypeScript assertion, performing no runtime validation. -/
structure CargoMsgBody where
  code : Option String
  level : String
  message : String
  spans : List Span
  rendered : Option String
deriving DecidableEq

/-- The result of applying JSON.parse to one line of cargo output, as far
as parseCargoDiagnostics observes it. malformed covers every line on which
the try block throws (non-JSON text, a record whose spans field is not an
array, and so on - the catch in src/unnamed/part_002 lines 109-111 skips
them all). record carries the reason tag and, when the message field is a
truthy well-formed body, that body. -/
inductive CargoLine where
  | malformed : CargoLine
  | record : String → Option CargoMsgBody → CargoLine
deriving DecidableEq

/-- A normalized diagnostic (src/unnamed/part_002 lines 29-38). The level
is a plain string because the source assigns it through an unchecked type
assertion (line 98). -/
structure Diagnostic where
  level : String
  code : Option String
  message : String
  file : String
  line : Nat
  column : Nat
  rendered : Option String
  suggestion : Option String
deriving DecidableEq

/-- Primary-span selection (src/unnamed/part_002 line 94):
m.spans.find(s => s.label !== null) ?? m.spans[0]. Note that the JS test
(label !== null) is true for a span whose label property is absent
(undefined), not only for one with a string label. -/
def primarySpan (spans : List Span) : Option Span :=
  match spans.find? (fun s => decide (s.label ≠ some none)) with
  | some s => some s
  | none => spans.head?

/-- The diagnostic pushed for message body m with primary span s
(src/unnamed/part_002 lines 97-106). The suggestion field applies the JS
expression (suggested_replacement ?? undefined), which collapses JSON null
to undefined. -/
def mkDiag (m : CargoMsgBody) (s : Span) : Diagnostic :=
  ⟨m.level, m.code, m.message, s.file_name, s.line_start, s.column_start,
   m.rendered, s.suggested_replacement.join⟩

/-- The per-line step of the parser loop (src/unnamed/part_002 lines
89-112): a line contributes a diagnostic exactly when it is a parsed
record with reason compiler-message, a truthy message body, and a
primary span. -/
def diagOfLine : CargoLine → Option Diagnostic
  | CargoLine.malformed => none
  | CargoLine.record reason msg =>
    if reason = "compiler-message" then
      match msg with
      | none => none
      | some m =>
        match primarySpan m.spans with
        | none => none
        | some s => some (mkDiag m s)
    else none

/-- The parser loop with its push accumulator (the diagnostics array of
src/unnamed/part_002 lines 86-112). -/
def parseCargoLinesGo : List CargoLine → List Diagnostic → List Diagnostic
  | [], acc => acc
  | l :: ls, acc =>
    match diagOfLine l with
    | some d => parseCargoLinesGo ls (acc ++ [d])
    | none => parseCargoLinesGo ls acc

/-- Record-level body of parseCargoDiagnostics: the loop run over the
already-JSON-parsed lines with an empty accumulator. -/
def parseCargoLines (lines : List CargoLine) : List Diagnostic :=
  parseCargoLinesGo lines []

/-- A line survives the filter (l => l.trim()) of src/unnamed/part_002
line 87 exactly when trimming leaves a nonempty (truthy) string, that is
when some character is not white space. -/
def nonBlankLine (l : List Char) : Bool :=
  l.any (fun c => !(isJsWs c))

/-- parseCargoDiagnostics (src/unnamed/part_002 lines 85-115): split the
output on newlines, drop blank lines, JSON-parse each remaining line
(jsonLine is the JSON.parse oracle) and run the loop. -/
def parseCargoDiagnostics (jsonLine : List Char → CargoLine) (output : String) :
    List Diagnostic :=
  parseCargoLines (((splitLines output.data).filter nonBlankLine).map jsonLine)

/-- Runtime value of the status field of a test result: the second capture
group of the outcome-line pattern is drawn from the alternation
(ok|FAILED|ignored) and lower-cased (src/unnamed/part_002 line 131), so
its value set is exactly these three. -/
inductive TStatus where
  | ok : TStatus
  | failed : TStatus
  | ignored : TStatus
deriving DecidableEq

/-- One normalized test outcome (src/unnamed/part_002 lines 40-44; the
stdout field is never populated by the parser and is omitted). -/
structure TestResult where
  name : String
  status : TStatus
deriving DecidableEq

/-- Continuation of the outcome-line pattern after the name capture:
backslash-s+ then three literal dots then backslash-s+ then the
alternation (ok|FAILED|ignored). Both white-space quantifiers are
deterministic here: giving back a white-space character would place a
white-space character where a dot literal or an alternative beginning
with a letter must match, so only the maximal run can succeed. -/
def matchAfterName (cs : List Char) : Option TStatus :=
  match takeWs cs with
  | (w2, cs2) =>
    if w2.isEmpty then none
    else
      match stripLit "...".data cs2 with
      | none => none
      | some cs3 =>
        match takeWs cs3 with
        | (w3, cs4) =>
          if w3.isEmpty then none
          else
            match stripLit "ok".data cs4 with
            | some _ => some TStatus.ok
            | none =>
              match stripLit "FAILED".data cs4 with
              | some _ => some TStatus.failed
              | none =>
                match stripLit "ignored".data cs4 with
                | some _ => some TStatus.ignored
                | none => none

/-- The lazy name capture (.+?) of the outcome-line pattern: consume one
dot-class character at a time (shortest first, as the lazy quantifier
does) and after each character try the rest of the pattern. -/
def tryName (acc : List Char) : List Char → Option (String × TStatus)
  | [] => none
  | c :: cs =>
    if isDotChar c then
      match matchAfterName cs with
      | some st => some (String.mk (acc ++ [c]), st)
      | none => tryName (acc ++ [c]) cs
    else none

/-- Backtracking over the first greedy backslash-s+ of the outcome-line
pattern: wrev is the reversed run of white space currently consumed by it
(longest first, as a greedy quantifier tries); on failure of the rest of
the pattern one character is given back to the name capture, while at
least one white-space character must remain consumed. -/
def searchWs1 : List Char → List Char → Option (String × TStatus)
  | wrev, rest =>
    match tryName [] rest with
    | some r => some r
    | none =>
      match wrev with
      | [] => none
      | [_] => none
      | w :: ws => searchWs1 ws (w :: rest)

/-- The outcome-line pattern of src/unnamed/part_002 line 127 applied to
one line: caret, literal test, backslash-s+, lazy name capture,
backslash-s+, three dots, backslash-s+, (ok|FAILED|ignored). Returns the
two captures on a match. -/
def testOfLine (line : List Char) : Option TestResult :=
  match stripLit "test".data line with
  | none => none
  | some cs =>
    match takeWs cs with
    | (w1, rest) =>
      if w1.isEmpty then none
      else
        match searchWs1 w1.reverse rest with
        | none => none
        | some (nm, st) => some ⟨nm, st⟩

/-- The outcome-collection loop of src/unnamed/part_002 lines 125-134,
with its push accumulator. -/
def collectTestsGo : List (List Char) → List TestResult → List TestResult
  | [], acc => acc
  | l :: ls, acc =>
    match testOfLine l with
    | some t => collectTestsGo ls (acc ++ [t])
    | none => collectTestsGo ls acc

/-- All recognized outcome lines of the split input, in input order. -/
def collectTests (lines : List (List Char)) : List TestResult :=
  collectTestsGo lines []

/-- The three digit-string captures of the summary pattern
(src/unnamed/part_002 lines 137-139). They are kept as strings because the
source interpolates the captures verbatim into the summary. -/
structure SummaryCaps where
  passed : String
  failed : String
  ignored : String
deriving DecidableEq

/-- Tail of the summary pattern after the lazy group: literal dot and
space, then three (digits+, literal) pairs. Each greedy digit quantifier
is deterministic: giving a digit back would place a digit where a space
literal must match. -/
def summaryTail (cs : List Char) : Option SummaryCaps :=
  match stripLit ". ".data cs with
  | none => none
  | some cs1 =>
    match takeDigits cs1 with
    | (d1, cs2) =>
      if d1.isEmpty then none
      else
        match stripLit " passed; ".data cs2 with
        | none => none
        | some cs3 =>
          match takeDigits cs3 with
          | (d2, cs4) =>
            if d2.isEmpty then none
            else
              match stripLit " failed; ".data cs4 with
              | none => none
              | some cs5 =>
                match takeDigits cs5 with
                | (d3, cs6) =>
                  if d3.isEmpty then none
                  else
                    match stripLit " ignored".data cs6 with
                    | none => none
                    | some _ => some ⟨String.mk d1, String.mk d2, String.mk d3⟩

/-- The lazy group (.*?) of the summary pattern: at each position first
try the tail (shortest match wins), and extend the group only across
characters the dot class accepts, so a match never crosses a line
terminator. -/
def summaryFrom : List Char → Option SummaryCaps
  | [] => none
  | c :: rest =>
    match summaryTail (c :: rest) with
    | some r => some r
    | none => if isDotChar c then summaryFrom rest else none

/-- JavaScript String.prototype.match with the summary pattern of
src/unnamed/part_002 lines 137-139 (no global flag): the leftmost match in
the whole text. At each start position the literal (test result: and a
space) must match, then the lazy group and the tail. -/
def findSummary : List Char → Option SummaryCaps
  | [] => none
  | c :: rest =>
    match
      (match stripLit "test result: ".data (c :: rest) with
       | some cs => summaryFrom cs
       | none => none) with
    | some r => some r
    | none => findSummary rest

/-- Result type of parseTestOutput (src/unnamed/part_002 lines 118-121). -/
structure TestParseResult where
  tests : List TestResult
  summary : String
deriving DecidableEq

/-- parseTestOutput (src/unnamed/part_002 lines 118-145): collect outcome
lines from the newline-split input; derive the summary from the first
summary-pattern match over the whole text when one exists, interpolating
the three captures, and otherwise from the count of recognized outcomes. -/
def parseTestOutput (output : String) : TestParseResult :=
  let tests := collectTests (splitLines output.data)
  let summary :=
    match findSummary output.data with
    | some caps =>
      caps.passed ++ " passed, " ++ caps.failed ++ " failed, " ++
        caps.ignored ++ " ignored"
    | none => toString tests.length ++ " tests found"
  ⟨tests, summary⟩

/-- formatDiagnostics (src/unnamed/part_002 lines 170-192): a fixed
sentence for the empty list, otherwise a header counting error- and
warning-level findings followed by one block per diagnostic in input
order. The code and suggestion fields are included only when truthy, that
is present and nonempty. -/
def formatDiagnostics (diagnostics : List Diagnostic) : String :=
  if diagnostics.length = 0 then "No issues found."
  else
    let errors := diagnostics.filter (fun d => decide (d.level = "error"))
    let warnings := diagnostics.filter (fun d => decide (d.level = "warning"))
    let header := "Found " ++ toString errors.length ++ " error(s) and " ++
      toString warnings.length ++ " warning(s):\n\n"
    diagnostics.foldl (fun output d =>
      let icon := if d.level = "error" then "❌"
        else if d.level = "warning" then "⚠️" else "ℹ️"
      let codeStr := match d.code with
        | some c => if c = "" then "" else "[" ++ c ++ "] "
        | none => ""
      let output := output ++ icon ++ " " ++ codeStr ++ d.message ++ "\n"
      let output := output ++ "   → " ++ d.file ++ ":" ++ toString d.line ++
        ":" ++ toString d.column ++ "\n"
      let output := match d.suggestion with
        | some s => if s = "" then output
            else output ++ "   💡 Suggestion: " ++ s ++ "\n"
        | none => output
      output ++ "\n") header

/-- The part of formatTestResults built before the final conditional
append (src/unnamed/part_002 lines 201-221): summary header, failed-tests
section, passed count, ignored count. It does not depend on the exit code
or the error stream. -/
def formatTestBase (tests : List TestResult) (summary : String) : String :=
  let output := "Test Results: " ++ summary ++ "\n\n"
  let failed := tests.filter (fun t => decide (t.status = TStatus.failed))
  let passed := tests.filter (fun t => decide (t.status = TStatus.ok))
  let ignored := tests.filter (fun t => decide (t.status = TStatus.ignored))
  let output :=
    if failed.length > 0 then
      (failed.foldl (fun acc t => acc ++ "   - " ++ t.name ++ "\n")
        (output ++ "❌ Failed tests:\n")) ++ "\n"
    else output
  let output :=
    if passed.length > 0 then
      output ++ "✅ Passed: " ++ toString passed.length ++ " tests\n"
    else output
  if ignored.length > 0 then
    output ++ "⏭️ Ignored: " ++ toString ignored.length ++ " tests\n"
  else output

/-- formatTestResults (src/unnamed/part_002 lines 195-228): the base
report, and when the exit code is nonzero while no outcome was recorded
as failed, the raw error stream under the compilation-error heading. -/
def formatTestResults (tests : List TestResult) (summary : String)
    (exitCode : Int) (stderr : String) : String :=
  let failed := tests.filter (fun t => decide (t.status = TStatus.failed))
  let output := formatTestBase tests summary
  if exitCode ≠ 0 ∧ failed.length = 0 then
    output ++ "\nCompilation or other error:\n" ++ stderr
  else output

/-- Captured result of one subprocess run (src/unnamed/part_002
lines 46-50). -/
structure CmdResult where
  stdout : String
  stderr : String
  exitCode : Int
deriving DecidableEq

/-- Name/version pair extracted by getProjectInfo. -/
structure ProjInfo where
  name : String
  version : String
deriving DecidableEq

/-- View of the first package of the cargo metadata JSON used by the
rust_project_info case (src/unnamed/part_003 lines 471-483): target
(name, kind list) pairs and, when the dependencies array is present, its
length. -/
structure MetaPkg where
  targets : List (String × List String)
  dependencies : Option Nat
deriving DecidableEq

/-- The argument bag of a tool call (src/unnamed/part_003): every field
the nine cases destructure. A missing property is none. The open flag of
bacon_doc is named openDocs because open is a Lean keyword. -/
structure ToolArgs where
  path : Option String
  all_targets : Option Bool
  all_features : Option Bool
  pedantic : Option Bool
  fix : Option Bool
  filter : Option String
  no_capture : Option Bool
  release : Option Bool
  no_deps : Option Bool
  openDocs : Option Bool

/-- External collaborators of the handler, passed as oracles: the
Cargo.toml existence check of validateRustProject, the subprocess runner,
the per-line JSON.parse of cargo output, getProjectInfo (a file read plus
two regexes), and the metadata JSON.parse of rust_project_info. -/
structure Env where
  hasCargoToml : String → Bool
  run : List String → String → CmdResult
  jsonLine : List Char → CargoLine
  projectInfo : String → Option ProjInfo
  metaPkg : String → Option MetaPkg

/-- A tool-call response together with the trace of subprocesses spawned
while producing it (argument vector and working directory, in order).
A JS return without an isError property is modelled as isError false. -/
structure ToolResponse where
  text : String
  isError : Bool
  spawned : List (List String × String)

/-- The switch statement of the tool-call handler
(src/unnamed/part_003 lines 263-498), reached only after the path and
project checks. -/
def dispatchTool (env : Env) (name : String) (args : ToolArgs)
    (path : String) : ToolResponse :=
  if name = "bacon_check" then
    let cargoArgs := ["check", "--message-format=json"] ++
      (if args.all_targets.getD false then ["--all-targets"] else []) ++
      (if args.all_features.getD false then ["--all-features"] else [])
    let result := env.run cargoArgs path
    ⟨formatDiagnostics (parseCargoDiagnostics env.jsonLine result.stdout),
     false, [(cargoArgs, path)]⟩
  else if name = "bacon_clippy" then
    let cargoArgs := ["clippy", "--message-format=json"] ++
      (if args.all_targets.getD true then ["--all-targets"] else []) ++
      (if args.fix.getD false then ["--fix", "--allow-dirty", "--allow-staged"] else []) ++
      (if args.pedantic.getD false then ["--", "-W", "clippy::pedantic"] else [])
    let result := env.run cargoArgs path
    ⟨formatDiagnostics (parseCargoDiagnostics env.jsonLine result.stdout),
     false, [(cargoArgs, path)]⟩
  else if name = "bacon_test" then
    let cargoArgs := ["test"] ++
      (match args.filter with
       | some f => if f = "" then [] else [f]
       | none => []) ++
      (if args.no_capture.getD false then ["--", "--nocapture"] else [])
    let result := env.run cargoArgs path
    let parsed := parseTestOutput (result.stderr ++ result.stdout)
    ⟨formatTestResults parsed.tests parsed.summary result.exitCode result.stderr,
     false, [(cargoArgs, path)]⟩
  else if name = "bacon_build" then
    let cargoArgs := ["build", "--message-format=json"] ++
      (if args.release.getD false then ["--release"] else []) ++
      (if args.all_targets.getD false then ["--all-targets"] else [])
    let result := env.run cargoArgs path
    let head := if result.exitCode = 0 then "âœ… Build successful!\n\n"
      else "âŒ Build failed!\n\n"
    ⟨head ++ formatDiagnostics (parseCargoDiagnostics env.jsonLine result.stdout),
     false, [(cargoArgs, path)]⟩
  else if name = "bacon_doc" then
    let cargoArgs := ["doc", "--message-format=json"] ++
      (if args.no_deps.getD true then ["--no-deps"] else []) ++
      (if args.openDocs.getD false then ["--open"] else [])
    let result := env.run cargoArgs path
    let head := if result.exitCode = 0 then "âœ… Documentation generated successfully!\n\n"
      else "âŒ Documentation generation failed!\n\n"
    ⟨head ++ formatDiagnostics (parseCargoDiagnostics env.jsonLine result.stdout),
     false, [(cargoArgs, path)]⟩
  else if name = "bacon_fmt_check" then
    let result := env.run ["fmt", "--check"] path
    if result.exitCode = 0 then
      ⟨"âœ… All files are properly formatted!", false, [(["fmt", "--check"], path)]⟩
    else
      let unformatted := (splitLines result.stdout.data).filter
        (fun l => (stripLit "Diff in".data l).isSome)
      ⟨"âš ï¸ " ++ toString unformatted.length ++ " file(s) need formatting:\n" ++
        String.intercalate "\n" (unformatted.map String.mk) ++
        "\n\nRun bacon_fmt to fix.",
       false, [(["fmt", "--check"], path)]⟩
  else if name = "bacon_fmt" then
    let result := env.run ["fmt"] path
    ⟨if result.exitCode = 0 then "âœ… Code formatted successfully!"
      else "âŒ Formatting failed:\n" ++ result.stderr,
     false, [(["fmt"], path)]⟩
  else if name = "bacon_audit" then
    let result := env.run ["audit"] path
    if result.exitCode = 0 then
      ⟨"âœ… No known vulnerabilities found in dependencies!", false,
       [(["audit"], path)]⟩
    else
      ⟨"âš ï¸ Security audit results:\n\n" ++ result.stdout ++ "\n" ++ result.stderr,
       false, [(["audit"], path)]⟩
  else if name = "rust_project_info" then
    match env.projectInfo path with
    | none => ⟨"Error: Could not parse Cargo.toml", true, []⟩
    | some info =>
      let metaArgs := ["metadata", "--no-deps", "--format-version=1"]
      let treeResult := env.run metaArgs path
      let output := "ðŸ“¦ Project: " ++ info.name ++ " v" ++ info.version ++ "\n" ++
        "ðŸ“ Path: " ++ path ++ "\n"
      let output :=
        match env.metaPkg treeResult.stdout with
        | none => output
        | some pkg =>
          let output := output ++ "\nðŸ“‹ Targets:\n" ++
            pkg.targets.foldl (fun acc t =>
              acc ++ "   - " ++ t.1 ++ " (" ++ String.intercalate ", " t.2 ++ ")\n") ""
          match pkg.dependencies with
          | some n => if n > 0 then output ++ "\nðŸ“š Dependencies: " ++ toString n ++ "\n"
              else output
          | none => output
      ⟨output, false, [(metaArgs, path)]⟩
  else ⟨"Unknown tool: " ++ name, true, []⟩

/-- The tool-call request handler (src/unnamed/part_003 lines 239-498):
reject a missing or empty (falsy) path, then reject a directory without a
Cargo.toml marker, and only then dispatch on the tool name. Both
rejections return an error-flagged response with an empty spawn trace. -/
def handleToolCall (env : Env) (name : String) (args : ToolArgs) : ToolResponse :=
  match args.path with
  | none => ⟨"Error: path is required", true, []⟩
  | some path =>
    if path = "" then ⟨"Error: path is required", true, []⟩
    else if !(env.hasCargoToml path) then
      ⟨"Error: No Cargo.toml found at " ++ path ++ ". Is this a Rust project?",
       true, []⟩
    else dispatchTool env name args path

/-- Substring containment, used to state that one rendered report names
another string. -/
def containsStr (hay needle : String) : Prop :=
  needle.data <:+: hay.data

instance (hay needle : String) : Decidable (containsStr hay needle) :=
  List.decidableInfix needle.data hay.data

/-- Iterated string repetition, used to build inputs with a chosen number
of outcome lines. -/
def repStr : Nat → String → String
  | 0, _ => ""
  | n + 1, s => s ++ repStr n s

/-- The parser loop is the order-preserving filterMap of the per-line
step: the accumulator only ever receives pushes at the end. -/
theorem parseCargoLinesGo_eq (ls : List CargoLine) (acc : List Diagnostic) :
    parseCargoLinesGo ls acc = acc ++ ls.filterMap diagOfLine := by
  induction ls generalizing acc with
  | nil => simp [parseCargoLinesGo]
  | cons l ls ih =>
    cases h : diagOfLine l with
    | none => simp [parseCargoLinesGo, List.filterMap_cons, h, ih]
    | some d => simp [parseCargoLinesGo, List.filterMap_cons, h, ih]

/-- Record-level parser as a filterMap. -/
theorem parseCargoLines_eq (lines : List CargoLine) :
    parseCargoLines lines = lines.filterMap diagOfLine := by
  rw [parseCargoLines, parseCargoLinesGo_eq, List.nil_append]

/-- The outcome loop is the order-preserving filterMap of the line
matcher. -/
theorem collectTestsGo_eq (ls : List (List Char)) (acc : List TestResult) :
    collectTestsGo ls acc = acc ++ ls.filterMap testOfLine := by
  induction ls generalizing acc with
  | nil => simp [collectTestsGo]
  | cons l ls ih =>
    cases h : testOfLine l with
    | none => simp [collectTestsGo, List.filterMap_cons, h, ih]
    | some t => simp [collectTestsGo, List.filterMap_cons, h, ih]

/-- Outcome collection as a filterMap. -/
theorem collectTests_eq (lines : List (List Char)) :
    collectTests lines = lines.filterMap testOfLine := by
  rw [collectTests, collectTestsGo_eq, List.nil_append]

/-- Inversion of the per-line step: a line that contributes a diagnostic
is a compiler-message record with a primary span, and the diagnostic is
built from that record and span. -/
theorem diagOfLine_eq_some {line : CargoLine} {d : Diagnostic}
    (h : diagOfLine line = some d) :
    ∃ m s, line = CargoLine.record "compiler-message" (some m) ∧
      primarySpan m.spans = some s ∧ d = mkDiag m s := by
  cases line with
  | malformed => simp [diagOfLine] at h
  | record reason msg =>
    by_cases hr : reason = "compiler-message"
    · subst hr
      cases msg with
      | none => simp [diagOfLine] at h
      | some m =>
        cases hp : primarySpan m.spans with
        | none => simp [diagOfLine, hp] at h
        | some s =>
          simp [diagOfLine, hp] at h
          exact ⟨m, s, rfl, hp, h.symm⟩
    · simp [diagOfLine, hr] at h

/-- The selected primary span is one of the record's spans. -/
theorem primarySpan_mem {spans : List Span} {s : Span}
    (h : primarySpan spans = some s) : s ∈ spans := by
  unfold primarySpan at h
  cases hf : spans.find? (fun s => decide (s.label ≠ some none)) with
  | some t =>
    rw [hf] at h
    cases h
    exact List.mem_of_find?_eq_some hf
  | none =>
    rw [hf] at h
    cases spans with
    | nil => cases h
    | cons a l =>
      rw [List.head?_cons, Option.some_inj] at h
      rw [← h]
      exact List.mem_cons_self a l

/-- A record with an empty span list never contributes a diagnostic. -/
theorem diagOfLine_empty_spans (reason : String) (m : CargoMsgBody)
    (h : m.spans = []) : diagOfLine (CargoLine.record reason (some m)) = none := by
  have hp : primarySpan m.spans = none := by rw [h]; rfl
  by_cases hr : reason = "compiler-message"
  · subst hr
    simp [diagOfLine, hp]
  · simp [diagOfLine, hr]

/-- A labelled span used in concrete records below. -/
def spanLabeled : Span :=
  ⟨"b.rs", 7, 7, 3, 4, some (some "expected here"), some none⟩

/-- A span whose label property is absent altogether (JS undefined). -/
def spanNoLabelKey : Span := ⟨"a.rs", 1, 2, 5, 6, none, none⟩

/-- A span carrying an explicit JSON null label. -/
def spanNullLabel : Span := ⟨"c.rs", 9, 9, 1, 2, some none, none⟩

/-- A compiler-message record with the given spans, used as a concrete
input. -/
def msgWithSpans (spans : List Span) : CargoLine :=
  CargoLine.record "compiler-message"
    (some ⟨some "E0308", "error", "mismatched types", spans, none⟩)

/-- C1 counterexample. The claim says that for a record with two spans of
which exactly one carries a non-null label, the emitted diagnostic is
located at the labelled span regardless of span order. Take the two spans
spanNoLabelKey (no label property at all, so it carries no label) and
spanLabeled (a string label). With the unlabelled span first the source
selects it, because the JS test (label !== null) is already true for an
absent label: the diagnostic is located at a.rs line 1 column 5, not at
the labelled span b.rs line 7 column 3, and swapping the two spans moves
the location, so the span order does matter. -/
theorem claim_C1_counterexample :
    (parseCargoLines [msgWithSpans [spanNoLabelKey, spanLabeled]]).map
        (fun d => (d.file, d.line, d.column)) = [("a.rs", 1, 5)] ∧
    (parseCargoLines [msgWithSpans [spanLabeled, spanNoLabelKey]]).map
        (fun d => (d.file, d.line, d.column)) = [("b.rs", 7, 3)] ∧
    spanNoLabelKey.label = none ∧
    spanLabeled.label = some (some "expected here") ∧
    ("a.rs", 1, 5) ≠ ("b.rs", (7 : Nat), (3 : Nat)) := by
  decide

/-- C1 as amended: for a record with two spans of which one carries a
string label and the other an explicit null label, the emitted diagnostic
takes its file, line and column from the labelled span in either span
order. -/
theorem claim_C1 :
    ∀ (code : Option String) (level message : String) (rendered : Option String)
      (a b : Span) (lab : String),
      a.label = some (some lab) → b.label = some none →
      (parseCargoLines [CargoLine.record "compiler-message"
          (some ⟨code, level, message, [a, b], rendered⟩)]).map
            (fun d => (d.file, d.line, d.column)) =
          [(a.file_name, a.line_start, a.column_start)] ∧
      (parseCargoLines [CargoLine.record "compiler-message"
          (some ⟨code, level, message, [b, a], rendered⟩)]).map
            (fun d => (d.file, d.line, d.column)) =
          [(a.file_name, a.line_start, a.column_start)] := by
  intro code level message rendered a b lab ha hb
  constructor <;>
    simp [parseCargoLines, parseCargoLinesGo, diagOfLine, primarySpan,
      List.find?, ha, hb, mkDiag]

/-- Witness for C1 at a concrete record. -/
theorem claim_C1_witness :
    spanLabeled.label = some (some "expected here") ∧
    spanNullLabel.label = some none ∧
    (parseCargoLines [CargoLine.record "compiler-message"
        (some ⟨some "E0308", "error", "mismatched types",
          [spanNullLabel, spanLabeled], none⟩)]).map
          (fun d => (d.file, d.line, d.column)) =
        [(spanLabeled.file_name, spanLabeled.line_start, spanLabeled.column_start)] :=
  ⟨rfl, rfl,
   (claim_C1 (some "E0308") "error" "mismatched types" none
      spanLabeled spanNullLabel "expected here" rfl rfl).2⟩

/-- C4: a compiler-message record with an empty span list contributes no
diagnostic (per line, and removed without trace from any surrounding
input), and every diagnostic the parser emits takes its file, line and
column from one of the spans of a compiler-message record of the input. -/
theorem claim_C4 :
    (∀ (reason : String) (m : CargoMsgBody), m.spans = [] →
      diagOfLine (CargoLine.record reason (some m)) = none) ∧
    (∀ (xs ys : List CargoLine) (reason : String) (m : CargoMsgBody),
      m.spans = [] →
      parseCargoLines (xs ++ CargoLine.record reason (some m) :: ys) =
        parseCargoLines (xs ++ ys)) ∧
    (∀ (jsonLine : List Char → CargoLine) (output : String) (d : Diagnostic),
      d ∈ parseCargoDiagnostics jsonLine output →
      ∃ m s, CargoLine.record "compiler-message" (some m) ∈
          ((splitLines output.data).filter nonBlankLine).map jsonLine ∧
        s ∈ m.spans ∧ d.file = s.file_name ∧ d.line = s.line_start ∧
        d.column = s.column_start) := by
  refine ⟨diagOfLine_empty_spans, ?_, ?_⟩
  · intro xs ys reason m h
    rw [parseCargoLines_eq, parseCargoLines_eq, List.filterMap_append,
      List.filterMap_append, List.filterMap_cons, diagOfLine_empty_spans reason m h]
  · intro jsonLine output d hd
    rw [parseCargoDiagnostics, parseCargoLines_eq, List.mem_filterMap] at hd
    obtain ⟨l, hl, hdl⟩ := hd
    obtain ⟨m, s, rfl, hps, rfl⟩ := diagOfLine_eq_some hdl
    exact ⟨m, s, hl, primarySpan_mem hps, rfl, rfl, rfl⟩

/-- A compiler-message record with an empty span list, as in the
should-handle-messages-without-spans test of the repository. -/
def emptySpansMsg : CargoMsgBody :=
  ⟨some "E0001", "error", "error without location", [], none⟩

/-- Witness for C4 at a concrete input. -/
theorem claim_C4_witness :
    emptySpansMsg.spans = [] ∧
    parseCargoLines ([CargoLine.malformed] ++
        CargoLine.record "compiler-message" (some emptySpansMsg) :: []) =
      parseCargoLines ([CargoLine.malformed] ++ []) :=
  ⟨rfl, claim_C4.2.1 [CargoLine.malformed] [] "compiler-message" emptySpansMsg rfl⟩

/-- A compiler-message record whose level is not one of error, warning,
note, help: the toolchain can emit such levels and the source applies no
runtime check. -/
def iceMsg : CargoMsgBody :=
  ⟨none, "ice", "internal compiler error", [spanNullLabel], none⟩

/-- C5 counterexample. The claim says every emitted diagnostic has a
level among error, warning, note and help. A record whose level field is
the string ice passes the unchecked type assertion of the source
unchanged, and the emitted diagnostic carries level ice. -/
theorem claim_C5_counterexample :
    (parseCargoLines [CargoLine.record "compiler-message" (some iceMsg)]).map
        (fun d => d.level) = ["ice"] ∧
    "ice" ∉ (["error", "warning", "note", "help"] : List String) := by
  decide

/-- C5 as amended: the level of every emitted diagnostic is the level
string of the compiler-message record it came from, copied verbatim; no
restriction to a closed level set is enforced. -/
theorem claim_C5 :
    ∀ (jsonLine : List Char → CargoLine) (output : String) (d : Diagnostic),
      d ∈ parseCargoDiagnostics jsonLine output →
      ∃ m, CargoLine.record "compiler-message" (some m) ∈
          ((splitLines output.data).filter nonBlankLine).map jsonLine ∧
        d.level = m.level := by
  intro jsonLine output d hd
  rw [parseCargoDiagnostics, parseCargoLines_eq, List.mem_filterMap] at hd
  obtain ⟨l, hl, hdl⟩ := hd
  obtain ⟨m, s, rfl, hps, rfl⟩ := diagOfLine_eq_some hdl
  exact ⟨m, hl, rfl⟩

/-- A concrete JSON.parse oracle: the single line ICE parses to the
compiler-message record iceMsg, anything else is malformed. -/
def jsonLineEx (l : List Char) : CargoLine :=
  if l = "ICE".data then CargoLine.record "compiler-message" (some iceMsg)
  else CargoLine.malformed

/-- Witness for C5 at a concrete input. -/
theorem claim_C5_witness :
    mkDiag iceMsg spanNullLabel ∈ parseCargoDiagnostics jsonLineEx "ICE" ∧
    ∃ m, CargoLine.record "compiler-message" (some m) ∈
        ((splitLines ("ICE" : String).data).filter nonBlankLine).map jsonLineEx ∧
      (mkDiag iceMsg spanNullLabel).level = m.level :=
  ⟨by decide, claim_C5 jsonLineEx "ICE" (mkDiag iceMsg spanNullLabel) (by decide)⟩

/-- C6: the parser is total by construction in this embedding (every
throwing operation of the source is caught and skipped per line); the
empty input yields the empty list for every JSON.parse behaviour, a line
list in which no line contributes yields the empty list, and so does any
text whose lines all parse to non-contributing values. -/
theorem claim_C6 :
    (∀ jsonLine : List Char → CargoLine, parseCargoDiagnostics jsonLine "" = []) ∧
    (∀ lines : List CargoLine, (∀ l ∈ lines, diagOfLine l = none) →
      parseCargoLines lines = []) ∧
    (∀ (jsonLine : List Char → CargoLine) (output : String),
      (∀ l : List Char, diagOfLine (jsonLine l) = none) →
      parseCargoDiagnostics jsonLine output = []) := by
  refine ⟨fun _ => rfl, ?_, ?_⟩
  · intro lines h
    rw [parseCargoLines_eq, List.filterMap_eq_nil_iff]
    exact h
  · intro jsonLine output h
    rw [parseCargoDiagnostics, parseCargoLines_eq, List.filterMap_eq_nil_iff]
    intro a ha
    obtain ⟨l, _, rfl⟩ := List.mem_map.mp ha
    exact h l

/-- Witness for C6 at concrete inputs: a text of two junk lines under the
everything-is-malformed JSON.parse oracle, and a line list holding one
malformed line and one non-compiler-message record. -/
theorem claim_C6_witness :
    parseCargoDiagnostics (fun _ => CargoLine.malformed) "not json\nbroken json" = [] ∧
    parseCargoLines [CargoLine.malformed,
      CargoLine.record "compiler-artifact" none] = [] :=
  ⟨claim_C6.2.2 (fun _ => CargoLine.malformed) "not json\nbroken json" (fun _ => rfl),
   claim_C6.2.1 [CargoLine.malformed, CargoLine.record "compiler-artifact" none]
     (by decide)⟩

/-- C9: both parsers are order-preserving and never deduplicate: the
diagnostic loop and the outcome loop are filterMaps of their per-line
steps, at the record level and through the string-level pipeline, and a
duplicated record is emitted once per occurrence. -/
theorem claim_C9 :
    (∀ lines : List CargoLine, parseCargoLines lines = lines.filterMap diagOfLine) ∧
    (∀ (jsonLine : List Char → CargoLine) (output : String),
      parseCargoDiagnostics jsonLine output =
        (((splitLines output.data).filter nonBlankLine).map jsonLine).filterMap
          diagOfLine) ∧
    (∀ output : String,
      (parseTestOutput output).tests =
        (splitLines output.data).filterMap testOfLine) ∧
    parseCargoLines [msgWithSpans [spanNullLabel], msgWithSpans [spanNullLabel]] =
      [mkDiag ⟨some "E0308", "error", "mismatched types", [spanNullLabel], none⟩ spanNullLabel,
       mkDiag ⟨some "E0308", "error", "mismatched types", [spanNullLabel], none⟩ spanNullLabel] := by
  refine ⟨parseCargoLines_eq, ?_, ?_, by decide⟩
  · intro jsonLine output
    rw [parseCargoDiagnostics, parseCargoLines_eq]
  · intro output
    show collectTests (splitLines output.data) = _
    exact collectTests_eq (splitLines output.data)

/-- When the summary pattern matches, the summary interpolates its three
captures. -/
theorem parseTestOutput_summary_of_match (output : String) (caps : SummaryCaps)
    (h : findSummary output.data = some caps) :
    (parseTestOutput output).summary =
      caps.passed ++ " passed, " ++ caps.failed ++ " failed, " ++
        caps.ignored ++ " ignored" := by
  simp [parseTestOutput, h]

/-- When the summary pattern does not match, the summary counts the
recognized outcome lines. -/
theorem parseTestOutput_summary_of_none (output : String)
    (h : findSummary output.data = none) :
    (parseTestOutput output).summary =
      toString (parseTestOutput output).tests.length ++ " tests found" := by
  simp [parseTestOutput, h]

/-- The leftmost summary match on a text beginning with the canonical
line (test result: ok. 2 passed; 1 failed; 0 ignored) starts at position
zero and captures 2, 1 and 0, whatever follows. -/
theorem findSummary_canonical (t : List Char) :
    findSummary ("test result: ok. 2 passed; 1 failed; 0 ignored".data ++ t) =
      some ⟨"2", "1", "0"⟩ := rfl

/-- An outcome line of the shape (test t ... ok) followed by a newline
contains no start of a summary match: every position inside it fails the
literal (test result: and a space) within the line itself, so scanning
continues in the remainder. -/
theorem findSummary_skip_okLine (t : List Char) :
    findSummary ("test t ... ok\n".data ++ t) = findSummary t := rfl

/-- Any number of leading canonical outcome lines is transparent to the
summary scan. -/
theorem findSummary_repStr_okLines (n : Nat) (t : List Char) :
    findSummary ((repStr n "test t ... ok\n").data ++ t) = findSummary t := by
  induction n with
  | zero => rfl
  | succ n ih =>
    have hd : (repStr (n + 1) "test t ... ok\n").data =
        "test t ... ok\n".data ++ (repStr n "test t ... ok\n").data := by
      rw [repStr, String.data_append]
    rw [hd, List.append_assoc, findSummary_skip_okLine, ih]

/-- C2 counterexample. The claim quantifies over every input text
containing exactly the summary line quoted as (2 passed; 1 failed; 0
ignored). The text consisting of exactly that line is such an input, yet
the source pattern additionally requires the prefix (test result: then
any run then a dot and a space) before the counts, so nothing matches and
the summary falls back to the outcome count. -/
theorem claim_C2_counterexample :
    (parseTestOutput "2 passed; 1 failed; 0 ignored").summary = "0 tests found" ∧
    "0 tests found" ≠ "2 passed, 1 failed, 0 ignored" := by
  constructor
  · rfl
  · decide

/-- A successful literal strip means the input is the literal followed by
the remainder. -/
theorem stripLit_eq_some {lit cs r : List Char} (h : stripLit lit cs = some r) :
    cs = lit ++ r := by
  induction lit generalizing cs with
  | nil =>
    rw [stripLit] at h
    cases h
    rfl
  | cons l ls ih =>
    cases cs with
    | nil => simp [stripLit] at h
    | cons c cs' =>
      rw [stripLit] at h
      by_cases hcl : c = l
      · rw [if_pos hcl] at h
        rw [List.cons_append, hcl, ih h]
      · rw [if_neg hcl] at h
        cases h

/-- The literal (test result: and a space) does not overlap itself: no
proper nonempty suffix of it begins the canonical authoritative line,
although that line begins with the full literal. Hence no summary match
can start inside a preceding text free of the literal and complete across
the boundary. -/
theorem litDrop_no_overlap :
    ∀ n : Fin 13, 0 < (n : Nat) →
      ¬ (("test result: ".data.drop (n : Nat)) <+:
          "test result: ok. 2 passed; 1 failed; 0 ignored".data) := by
  decide

/-- One scan step: when the literal does not begin at the current
position, the leftmost-match search moves one character forward. -/
theorem findSummary_cons_of_none {c : Char} {cs : List Char}
    (hs : stripLit "test result: ".data (c :: cs) = none) :
    findSummary (c :: cs) = findSummary cs := by
  have hstep : findSummary (c :: cs) =
      match (match stripLit "test result: ".data (c :: cs) with
             | some u => summaryFrom u
             | none => none) with
      | some r => some r
      | none => findSummary cs := rfl
  rw [hstep, hs]

/-- Scanning a text made of a prefix free of the literal (test result:
and a space), then the canonical authoritative line, then anything,
yields the canonical line's own match: captures 2, 1 and 0. -/
theorem findSummary_after_clean (pre t : List Char)
    (h : ¬ ("test result: ".data <:+: pre)) :
    findSummary (pre ++
        ("test result: ok. 2 passed; 1 failed; 0 ignored".data ++ t)) =
      some ⟨"2", "1", "0"⟩ := by
  induction pre with
  | nil => exact findSummary_canonical t
  | cons c cs ih =>
    have h' : ¬ ("test result: ".data <:+: cs) := by
      intro hc
      obtain ⟨s, u, hsu⟩ := hc
      exact h ⟨c :: s, u, by rw [← hsu]; rfl⟩
    cases hs : stripLit "test result: ".data
        (c :: (cs ++ ("test result: ok. 2 passed; 1 failed; 0 ignored".data ++ t))) with
    | some r =>
      exfalso
      have hsplit : (c :: cs) ++
          ("test result: ok. 2 passed; 1 failed; 0 ignored".data ++ t) =
          "test result: ".data ++ r := by
        rw [List.cons_append]
        exact stripLit_eq_some hs
      rcases List.append_eq_append_iff.mp hsplit with ⟨k, hk, hrest⟩ | ⟨k, hk, _⟩
      · -- the literal extends past the prefix: lit = (c :: cs) ++ k
        by_cases hk0 : k = []
        · subst hk0
          rw [List.append_nil] at hk
          exact h ⟨[], [], by rw [List.nil_append, List.append_nil]; exact hk⟩
        · have hlen := congrArg List.length hk
          simp only [List.length_append, List.length_cons, List.length_nil] at hlen
          have hkpos : 0 < k.length := List.length_pos.mpr hk0
          have hcs : 0 < (c :: cs).length := by simp
          have hn : (c :: cs).length < 13 := by
            simp only [List.length_cons]
            omega
          have hdropk : "test result: ".data.drop (c :: cs).length = k := by
            rw [hk]
            exact List.drop_left _ _
          have hkpre : k <+: "test result: ok. 2 passed; 1 failed; 0 ignored".data := by
            have h1 : k <+:
                "test result: ok. 2 passed; 1 failed; 0 ignored".data ++ t :=
              ⟨r, hrest.symm⟩
            have h46 : ("test result: ok. 2 passed; 1 failed; 0 ignored".data).length = 46 :=
              rfl
            refine List.prefix_of_prefix_length_le h1 (List.prefix_append _ t) ?_
            rw [h46]
            omega
          have hno := litDrop_no_overlap ⟨(c :: cs).length, hn⟩ hcs
          rw [hdropk] at hno
          exact hno hkpre
      · -- the literal lies inside the prefix: c :: cs = lit ++ k
        exact h ⟨[], k, by rw [List.nil_append]; exact hk.symm⟩
    | none =>
      rw [List.cons_append, findSummary_cons_of_none hs]
      exact ih h'

/-- C2 as amended: the summary comes from the leftmost match of the
summary pattern. For every input text built of a prefix that does not
contain the substring (test result: and a space) - in particular any
number of ordinary recognized outcome lines - followed by the full
authoritative line (test result: ok. 2 passed; 1 failed; 0 ignored) and
then anything at all, the summary equals (2 passed, 1 failed, 0 ignored),
independent of how many outcome lines were recognized. The last two
conjuncts record the boundary of this condition: a recognized outcome
line that itself embeds the literal plus counts, such as
(test result: ok. 9 passed; 8 failed; 7 ignored ... ok), supplies the
leftmost match, and its counts win over the authoritative line's. -/
theorem claim_C2 :
    (∀ (pre rest : String), ¬ containsStr pre "test result: " →
      (parseTestOutput (pre ++
        ("test result: ok. 2 passed; 1 failed; 0 ignored" ++ rest))).summary =
        "2 passed, 1 failed, 0 ignored") ∧
    (∀ (n : Nat) (rest : String),
      (parseTestOutput (repStr n "test t ... ok\n" ++
        ("test result: ok. 2 passed; 1 failed; 0 ignored" ++ rest))).summary =
      "2 passed, 1 failed, 0 ignored") ∧
    testOfLine "test result: ok. 9 passed; 8 failed; 7 ignored ... ok".data =
      some ⟨"result: ok. 9 passed; 8 failed; 7 ignored", TStatus.ok⟩ ∧
    (parseTestOutput
        "test result: ok. 9 passed; 8 failed; 7 ignored ... ok\ntest result: ok. 2 passed; 1 failed; 0 ignored").summary =
      "9 passed, 8 failed, 7 ignored" := by
  refine ⟨?_, ?_, by decide, by decide⟩
  · intro pre rest h
    have hfind : findSummary (pre ++
        ("test result: ok. 2 passed; 1 failed; 0 ignored" ++ rest)).data =
        some ⟨"2", "1", "0"⟩ := by
      rw [String.data_append, String.data_append]
      exact findSummary_after_clean pre.data rest.data h
    rw [parseTestOutput_summary_of_match _ _ hfind]
    rfl
  · intro n rest
    have hfind : findSummary (repStr n "test t ... ok\n" ++
        ("test result: ok. 2 passed; 1 failed; 0 ignored" ++ rest)).data =
        some ⟨"2", "1", "0"⟩ := by
      rw [String.data_append, String.data_append, findSummary_repStr_okLines,
        findSummary_canonical]
    rw [parseTestOutput_summary_of_match _ _ hfind]
    rfl

/-- Witness for C2: a realistic capture-free prefix (a run header and two
ordinary outcome lines), the authoritative line, and trailing counters. -/
theorem claim_C2_witness :
    ¬ containsStr "running 2 tests\ntest alpha ... ok\ntest beta ... FAILED\n"
        "test result: " ∧
    (parseTestOutput ("running 2 tests\ntest alpha ... ok\ntest beta ... FAILED\n" ++
      ("test result: ok. 2 passed; 1 failed; 0 ignored" ++
        "; 0 measured; 0 filtered out; finished in 0.02s\n"))).summary =
      "2 passed, 1 failed, 0 ignored" :=
  ⟨by decide,
   claim_C2.1 "running 2 tests\ntest alpha ... ok\ntest beta ... FAILED\n"
     "; 0 measured; 0 filtered out; finished in 0.02s\n" (by decide)⟩

/-- C8: when no summary-pattern match is present the summary is the
count of recognized outcome lines followed by (tests found); in
particular the empty text has no outcomes and summary (0 tests found). -/
theorem claim_C8 :
    (∀ output : String, findSummary output.data = none →
      (parseTestOutput output).summary =
        toString (parseTestOutput output).tests.length ++ " tests found") ∧
    (parseTestOutput "").tests = [] ∧
    (parseTestOutput "").summary = "0 tests found" :=
  ⟨parseTestOutput_summary_of_none, rfl, rfl⟩

/-- Witness for C8 at a concrete input without a summary line. -/
theorem claim_C8_witness :
    findSummary ("running 0 tests\nno summary here" : String).data = none ∧
    (parseTestOutput "running 0 tests\nno summary here").summary =
      toString (parseTestOutput "running 0 tests\nno summary here").tests.length ++
        " tests found" :=
  ⟨rfl, claim_C8.1 "running 0 tests\nno summary here" rfl⟩

/-- C10: with two summary lines in the text (as a run over several test
binaries produces) the summary is derived from the first match only: the
counts of the second line are universally quantified and do not influence
the result, nor does anything after it. -/
theorem claim_C10 :
    ∀ (p f i rest : String),
      (parseTestOutput
        ("test result: ok. 2 passed; 1 failed; 0 ignored\ntest result: FAILED. " ++
          (p ++ (" passed; " ++ (f ++ (" failed; " ++ (i ++ (" ignored" ++ rest)))))))).summary =
      "2 passed, 1 failed, 0 ignored" := by
  intro p f i rest
  have hsplit :
      ("test result: ok. 2 passed; 1 failed; 0 ignored\ntest result: FAILED. " ++
        (p ++ (" passed; " ++ (f ++ (" failed; " ++ (i ++ (" ignored" ++ rest))))))).data =
      "test result: ok. 2 passed; 1 failed; 0 ignored".data ++
        ("\ntest result: FAILED. ".data ++
          (p ++ (" passed; " ++ (f ++ (" failed; " ++ (i ++ (" ignored" ++ rest)))))).data) := by
    rw [String.data_append]
    rw [show ("test result: ok. 2 passed; 1 failed; 0 ignored\ntest result: FAILED. " : String).data =
      "test result: ok. 2 passed; 1 failed; 0 ignored".data ++
        "\ntest result: FAILED. ".data from rfl]
    rw [List.append_assoc]
  have hfind : findSummary
      ("test result: ok. 2 passed; 1 failed; 0 ignored\ntest result: FAILED. " ++
        (p ++ (" passed; " ++ (f ++ (" failed; " ++ (i ++ (" ignored" ++ rest))))))).data =
      some ⟨"2", "1", "0"⟩ := by
    rw [hsplit, findSummary_canonical]
  rw [parseTestOutput_summary_of_match _ _ hfind]
  rfl

/-- Appending the empty string on the right is the identity. -/
theorem strAppendEmpty (s : String) : s ++ "" = s := by
  cases s with
  | mk data =>
    show String.mk (data ++ []) = String.mk data
    rw [List.append_nil]

/-- String append is associative. -/
theorem strAppendAssoc (a b c : String) : a ++ b ++ c = a ++ (b ++ c) := by
  cases a with
  | mk da =>
    cases b with
    | mk db =>
      cases c with
      | mk dc =>
        show String.mk (da ++ db ++ dc) = String.mk (da ++ (db ++ dc))
        rw [List.append_assoc]

/-- C3 counterexample. The claim quantifies over every summary string and
states that the output contains a Compilation-or-other-error section if
and only if the exit code is nonzero and no outcome failed. A summary
that itself embeds the section heading makes the output contain it even
with exit code zero and no failed outcome, so the equivalence fails at
this input. -/
theorem claim_C3_counterexample :
    ¬ (containsStr
        (formatTestResults [] "x\nCompilation or other error:\ny" 0 "y")
        ("\nCompilation or other error:\n" ++ "y") ↔
       ((0 : Int) ≠ 0 ∧
        (([] : List TestResult).filter
          (fun t => decide (t.status = TStatus.failed))).length = 0)) := by
  intro h
  have hc : containsStr
      (formatTestResults [] "x\nCompilation or other error:\ny" 0 "y")
      ("\nCompilation or other error:\n" ++ "y") := by decide
  exact absurd (h.mp hc).1 (by decide)

/-- C3 as amended: the error section (heading plus the error stream
verbatim) is appended exactly when the exit code is nonzero and no
outcome was recorded as failed, and the rest of the output is independent
of the exit code and the error stream; in particular, with one failed
outcome and exit code 1 the heading is absent from the output and the
failed name is listed under the failed-tests heading. -/
theorem claim_C3 :
    (∀ (tests : List TestResult) (summary : String) (exitCode : Int)
       (stderr : String),
      formatTestResults tests summary exitCode stderr =
        formatTestBase tests summary ++
          (if exitCode ≠ 0 ∧
              (tests.filter (fun t => decide (t.status = TStatus.failed))).length = 0
           then "\nCompilation or other error:\n" ++ stderr else "")) ∧
    (¬ containsStr
        (formatTestResults [⟨"test_fail", TStatus.failed⟩]
          "0 passed, 1 failed, 0 ignored" 1 "thread panicked")
        "Compilation or other error" ∧
     containsStr
        (formatTestResults [⟨"test_fail", TStatus.failed⟩]
          "0 passed, 1 failed, 0 ignored" 1 "thread panicked")
        ("❌ Failed tests:\n" ++ ("   - " ++ ("test_fail" ++ "\n")))) := by
  refine ⟨?_, by decide, by decide⟩
  intro tests summary exitCode stderr
  by_cases h : exitCode ≠ 0 ∧
      (tests.filter (fun t => decide (t.status = TStatus.failed))).length = 0
  · rw [if_pos h]
    unfold formatTestResults
    rw [if_pos h, strAppendAssoc]
  · rw [if_neg h]
    unfold formatTestResults
    rw [if_neg h, strAppendEmpty]

/-- C7: for every environment, tool name and argument bag whose supplied
nonempty path lacks the Cargo.toml marker, the handler returns an
error-flagged response whose text is the fixed message naming Cargo.toml
and the supplied path, with an empty subprocess trace, so the rejection
happens before any subprocess is spawned. -/
theorem claim_C7 :
    ∀ (env : Env) (name : String) (args : ToolArgs) (path : String),
      args.path = some path → path ≠ "" → env.hasCargoToml path = false →
      (handleToolCall env name args).isError = true ∧
      (handleToolCall env name args).spawned = [] ∧
      containsStr (handleToolCall env name args).text "Cargo.toml" ∧
      containsStr (handleToolCall env name args).text path ∧
      (handleToolCall env name args).text =
        "Error: No Cargo.toml found at " ++ path ++ ". Is this a Rust project?" := by
  intro env name args path hp hne hmiss
  have hcall : handleToolCall env name args =
      ⟨"Error: No Cargo.toml found at " ++ path ++ ". Is this a Rust project?",
       true, []⟩ := by
    unfold handleToolCall
    rw [hp]
    simp [hne, hmiss]
  refine ⟨by rw [hcall], by rw [hcall], ?_, ?_, by rw [hcall]⟩
  · rw [hcall]
    exact ⟨"Error: No ".data,
      (" found at " ++ path ++ ". Is this a Rust project?").data, rfl⟩
  · rw [hcall]
    exact ⟨"Error: No Cargo.toml found at ".data, ". Is this a Rust project?".data, rfl⟩

/-- An environment whose project check always fails; the remaining
oracles are inert. -/
def envNoProject : Env :=
  ⟨fun _ => false, fun _ _ => ⟨"", "", 0⟩, fun _ => CargoLine.malformed,
   fun _ => none, fun _ => none⟩

/-- An argument bag supplying only a path. -/
def argsOnlyPath : ToolArgs :=
  ⟨some "/tmp/not-a-project", none, none, none, none, none, none, none, none, none⟩

/-- Witness for C7 at a concrete environment, tool name and path. -/
theorem claim_C7_witness :
    argsOnlyPath.path = some "/tmp/not-a-project" ∧
    "/tmp/not-a-project" ≠ "" ∧
    envNoProject.hasCargoToml "/tmp/not-a-project" = false ∧
    (handleToolCall envNoProject "bacon_check" argsOnlyPath).isError = true ∧
    (handleToolCall envNoProject "bacon_check" argsOnlyPath).spawned = [] ∧
    containsStr (handleToolCall envNoProject "bacon_check" argsOnlyPath).text
      "Cargo.toml" ∧
    containsStr (handleToolCall envNoProject "bacon_check" argsOnlyPath).text
      "/tmp/not-a-project" ∧
    (handleToolCall envNoProject "bacon_check" argsOnlyPath).text =
      "Error: No Cargo.toml found at " ++ "/tmp/not-a-project" ++
        ". Is this a Rust project?" := by
  have h := claim_C7 envNoProject "bacon_check" argsOnlyPath "/tmp/not-a-project"
    rfl (by decide) rfl
  exact ⟨rfl, by decide, rfl, h.1, h.2.1, h.2.2.1, h.2.2.2.1, h.2.2.2.2⟩

/-!
Fidelity checks: the embedding reproduces the expectations of the
repository's own test suite (src/src/server.test.ts and the utils tests)
on their exact inputs, plus edge cases of the two regular expressions
(backtracking priority of the greedy white-space run against the lazy
name capture, digit captures kept verbatim, prefix requirement of the
summary pattern).
-/
example : (parseTestOutput "\nrunning 3 tests\ntest tests::test_one ... ok\ntest tests::test_two ... ok\ntest tests::test_three ... ok\n\ntest result: ok. 3 passed; 0 failed; 0 ignored\n").tests =
  [⟨"tests::test_one", TStatus.ok⟩, ⟨"tests::test_two", TStatus.ok⟩, ⟨"tests::test_three", TStatus.ok⟩] := by decide

example : (parseTestOutput "\nrunning 3 tests\ntest tests::test_one ... ok\ntest tests::test_two ... ok\ntest tests::test_three ... ok\n\ntest result: ok. 3 passed; 0 failed; 0 ignored\n").summary = "3 passed, 0 failed, 0 ignored" := by decide

example : (parseTestOutput "\nrunning 2 tests\ntest tests::test_pass ... ok\ntest tests::test_fail ... FAILED\n\ntest result: FAILED. 1 passed; 1 failed; 0 ignored\n").tests =
  [⟨"tests::test_pass", TStatus.ok⟩, ⟨"tests::test_fail", TStatus.failed⟩] := by decide

example : (parseTestOutput "\nrunning 2 tests\ntest tests::test_active ... ok\ntest tests::test_skip ... ignored\n\ntest result: ok. 1 passed; 0 failed; 1 ignored\n").summary = "1 passed, 0 failed, 1 ignored" := by decide

example : testOfLine "test src/lib.rs - MyStruct::new (line 10) ... ok".data =
  some ⟨"src/lib.rs - MyStruct::new (line 10)", TStatus.ok⟩ := by decide

example : testOfLine "test another_module::deeply::nested::test ... FAILED".data =
  some ⟨"another_module::deeply::nested::test", TStatus.failed⟩ := by decide

example : testOfLine "not a test line".data = none := by decide

example : formatDiagnostics [] = "No issues found." := by decide

example : formatDiagnostics [⟨"error", some "E0425", "cannot find value", "src/main.rs", 10, 5, none, none⟩] =
  "Found 1 error(s) and 0 warning(s):\n\n❌ [E0425] cannot find value\n   → src/main.rs:10:5\n\n" := by decide

example : formatTestResults [] "0 tests found" 1 "boom" =
  "Test Results: 0 tests found\n\n\nCompilation or other error:\nboom" := by decide

example : formatTestResults [⟨"test_fail", TStatus.failed⟩] "0 passed, 1 failed, 0 ignored" 1 "x" =
  "Test Results: 0 passed, 1 failed, 0 ignored\n\n❌ Failed tests:\n   - test_fail\n\n" := by decide

example : formatTestResults [⟨"a", TStatus.ok⟩, ⟨"b", TStatus.ignored⟩] "s" 0 "" =
  "Test Results: s\n\n✅ Passed: 1 tests\n⏭️ Ignored: 1 tests\n" := by decide

example : parseCargoLines [msgWithSpans []] = [] := by decide

example :
    parseCargoLines [CargoLine.malformed,
      CargoLine.record "compiler-message"
        (some ⟨some "E0425", "error", "cannot find value", [⟨"src/main.rs", 10, 10, 5, 8, some (some "not found in this scope"), some none⟩], some "rendered text"⟩)] =
    [⟨"error", some "E0425", "cannot find value", "src/main.rs", 10, 5, some "rendered text", none⟩] := by decide

example :
    parseCargoLines [CargoLine.record "compiler-message"
      (some ⟨some "unused_variables", "warning", "unused variable", [⟨"src/lib.rs", 5, 5, 9, 10, some (some "help"), some (some "_x")⟩], none⟩)] =
    [⟨"warning", some "unused_variables", "unused variable", "src/lib.rs", 5, 9, none, some "_x"⟩] := by decide

-- edge: lazy name capture with weird whitespace (backtracking order check):
-- the JS regex on (test front 4 spaces then dots) captures a single-space name
example : testOfLine "test    ... ok".data = some ⟨" ", TStatus.ok⟩ := by decide

-- edge: extra dots mean no match
example : testOfLine "test a .... ok".data = none := by decide

-- edge: name swallows a dot run when needed
example : testOfLine "test foo ...  ... ok".data = some ⟨"foo ...", TStatus.ok⟩ := by decide

-- summary match embedded mid-line, what precedes is irrelevant
example : findSummary "garbage test result: ok. 12 passed; 0 failed; 3 ignored; finished".data =
  some ⟨"12", "0", "3"⟩ := by decide

-- leading digits are captured greedily and verbatim (zero-padded stays)
example : findSummary "test result: FAILED. 007 passed; 10 failed; 0 ignored".data =
  some ⟨"007", "10", "0"⟩ := by decide

-- no prefix, no match
example : findSummary "2 passed; 1 failed; 0 ignored".data = none := by decide
